import Mathlib

/-!
Shallow embedding of `src/validators/roi_validator.py` (class `PrologValidator`):
the threshold metric evaluators (`validate_roi`, `validate_ltv_cac`,
`validate_margin`), the SWI-Prolog adapter (`_query_prolog`), the five phase
gates (`_validate_gate_p1` … `_validate_gate_p5`) with their dispatcher
(`validate_phase_gate`), the technology auditor (`validate_tech_stack`) and
`generate_validation_report`.

Python dynamic values are modelled by `PyVal` (None, bool, float, str, and the
list-of-strings shape the validator reads from the context); the caller's
`context` dict is an association list.  Code that Python would abort with an
exception (TypeError on a non-numeric comparison or on formatting `None`,
AttributeError on `.upper()` of a non-string, KeyError on a missing dict key)
is embedded in `Except String`, the error string naming the exception.
Context reads are threaded in state-passing style (`ctxGetS` and friends
return the dictionary alongside the value) so that the absence of mutation is
a provable property rather than an artefact of the encoding.  Floats are
modelled as `ℚ`; Python's `f"{x:.2f}"` rendering is modelled by `fmt2`
(fixed-point with two decimals).
-/

/-- A Python value as the validator can observe it: `None`, a bool, a float
(modelled as `ℚ`), a string, or a list of strings (the only list shape the
validator reads, as the `tech_stack` entry). -/
inductive PyVal where
  | none
  | bool (b : Bool)
  | num (q : ℚ)
  | str (s : String)
  | strlist (l : List String)
deriving Repr, DecidableEq

/-- Python truthiness: `None`, `False`, `0`, `""` and `[]` are falsy. -/
def PyVal.truthy : PyVal → Bool
  | .none => false
  | .bool b => b
  | .num q => decide (q ≠ 0)
  | .str s => decide (s ≠ "")
  | .strlist l => decide (l ≠ [])

/-- Python's `x and y`: `x` when `x` is falsy, else `y`. -/
def PyVal.pyAnd (a b : PyVal) : PyVal := if a.truthy then b else a

/-- Numeric coercion for comparisons and arithmetic: Python bools are ints
(`True == 1`, `False == 0`); `None`, strings and lists are not numbers, so
ordering or arithmetic on them raises `TypeError`. -/
def PyVal.toNum : PyVal → Option ℚ
  | .bool b => some (if b then 1 else 0)
  | .num q => some q
  | _ => Option.none

/-- A caller-supplied `context` dict: evidence-fact name to value. -/
abbrev Ctx := List (String × PyVal)

/-- `context.get(k)`'s underlying lookup: the stored value, if the key is present. -/
def ctxLookup (ctx : Ctx) (k : String) : Option PyVal :=
  (ctx.find? (fun p => p.1 == k)).map (fun p => p.2)

/-- `context.get(k)` (default `None`). -/
def ctxGet (ctx : Ctx) (k : String) : PyVal := (ctxLookup ctx k).getD .none

/-- `context.get(k, d)`. -/
def ctxGetD (ctx : Ctx) (k : String) (d : PyVal) : PyVal := (ctxLookup ctx k).getD d

/-- `k in context`. -/
def ctxHas (ctx : Ctx) (k : String) : Bool := (ctxLookup ctx k).isSome

/-- State-passing `context.get(k)`: reading hands the dictionary
back unchanged, which is what lets the no-mutation property be proved. -/
def ctxGetS (ctx : Ctx) (k : String) : PyVal × Ctx := (ctxGet ctx k, ctx)

/-- State-passing `context.get(k, d)`. -/
def ctxGetDS (ctx : Ctx) (k : String) (d : PyVal) : PyVal × Ctx := (ctxGetD ctx k d, ctx)

/-- State-passing `k in context`. -/
def ctxHasS (ctx : Ctx) (k : String) : Bool × Ctx := (ctxHas ctx k, ctx)

/-- Is `needle` a prefix of `hay` (over characters)? -/
def listIsPre : List Char → List Char → Bool
  | [], _ => true
  | _ :: _, [] => false
  | a :: as, b :: bs => a == b && listIsPre as bs

/-- Does `hay` contain `needle` as a contiguous run (over characters)? -/
def listContains (needle : List Char) : List Char → Bool
  | [] => listIsPre needle []
  | h :: t => listIsPre needle (h :: t) || listContains needle t

/-- Python's `needle in hay` on strings: contiguous-substring containment. -/
def substrOf (needle hay : String) : Bool := listContains needle.data hay.data

/-- Python's `str.lower()` (ASCII case mapping suffices for the fixed lists). -/
def strLower (s : String) : String := String.mk (s.data.map Char.toLower)

/-- Python's `str.upper()`. -/
def strUpper (s : String) : String := String.mk (s.data.map Char.toUpper)

/-- The decimal digit characters. -/
def digitChar : Nat → Char
  | 0 => '0' | 1 => '1' | 2 => '2' | 3 => '3' | 4 => '4'
  | 5 => '5' | 6 => '6' | 7 => '7' | 8 => '8' | 9 => '9'
  | _ => '*'

/-- Decimal digits of `n`, most significant first (`fuel ≥ 1` suffices since
`n < 10 ^ n + 10`). -/
def natDigitsCore (fuel n : Nat) : List Char :=
  match fuel with
  | 0 => []
  | fuel + 1 =>
    if n < 10 then [digitChar n]
    else natDigitsCore fuel (n / 10) ++ [digitChar (n % 10)]

/-- Decimal rendering of a natural (Python's `str()` on a non-negative int). -/
def natToStr (n : Nat) : String := String.mk (natDigitsCore (n + 1) n)

/-- Model of Python's `f"{x:.2f}"` on a float: fixed-point with two decimals
(half-up at the third decimal; binary-float half-even ties are below the
resolution any claim reads). -/
def fmt2 (q : ℚ) : String :=
  let r := q * 100 + 1 / 2
  let n : ℤ := r.num.ediv (r.den : ℤ)
  let sign := if n < 0 then "-" else ""
  let m := n.natAbs
  sign ++ natToStr (m / 100) ++ "." ++ (if m % 100 < 10 then "0" else "") ++ natToStr (m % 100)

/-- Model of Python's `str()` on a float threshold (the thresholds 1.5, 3.0 and
20.0 all print with one decimal). -/
def fmt1 (q : ℚ) : String :=
  let r := q * 10
  let n : ℤ := r.num.ediv (r.den : ℤ)
  let sign := if n < 0 then "-" else ""
  let m := n.natAbs
  sign ++ natToStr (m / 10) ++ "." ++ natToStr (m % 10)

/-- The pass/fail outcome a rendered check string records: it opens with the
pass marker `✓` (every check the gates emit opens with `✓` or `✗`). -/
def checkPassed (s : String) : Bool := listIsPre "✓".data s.data

/-- Model of Python's `str()` of a context value inside an f-string (only ever
reached, inside the report, for a non-string `current_phase`). -/
def pyToDisplay : PyVal → String
  | .none => "None"
  | .bool b => if b then "True" else "False"
  | .num q => fmt1 q
  | .str s => s
  | .strlist l => "[" ++ String.intercalate ", " l ++ "]"

/-- The outcome of running the external SWI-Prolog process once: it timed out,
its execution raised, or it exited with a code (`subprocess.run` in
`_query_prolog`). -/
inductive ProcOutcome where
  | timeout
  | execError (msg : String)
  | exited (code : Nat)
deriving Repr, DecidableEq

/-- The dict `{"success": True}` that `_query_prolog` returns on exit code 0. -/
structure QuerySuccess where
  success : Bool
deriving Repr, DecidableEq

/-- `_query_prolog`: `None` when the engine is unavailable; otherwise reduce
the process outcome to `{"success": True}` exactly on exit code 0, absorbing
timeouts and execution errors (the `except` clause catches every exception)
into `None`. -/
def queryProlog (prologAvailable : Bool) (outcome : ProcOutcome) : Option QuerySuccess :=
  if prologAvailable then
    match outcome with
    | .exited code => if code == 0 then some ⟨true⟩ else Option.none
    | .timeout => Option.none
    | .execError _ => Option.none
  else Option.none

/-- The validator's state: the availability flag probed once at construction,
and — standing for the external world — the process outcome each metric query
would see for given numeric arguments. -/
structure PrologValidator where
  prologAvailable : Bool
  roiOutcome : ℚ → ℚ → ProcOutcome
  ltvCacOutcome : ℚ → ℚ → ProcOutcome
  marginOutcome : ℚ → ℚ → ProcOutcome

/-- A validator constructed where SWI-Prolog is not installed: every
evaluation takes the Python fallback path. -/
def pythonOnlyValidator : PrologValidator :=
  { prologAvailable := false
    roiOutcome := fun _ _ => .timeout
    ltvCacOutcome := fun _ _ => .timeout
    marginOutcome := fun _ _ => .timeout }

/-- A metric-evaluator result dict.  Fields a branch does not set are `none`
(the Python dict simply lacks the key; reading it raises KeyError). -/
structure MetricResult where
  valid : Bool
  value : Option ℚ
  threshold : Option ℚ
  reason : Option String
  validated_by : Option String
deriving Repr, DecidableEq

/-- The `{"valid": False, "reason": ..., <value>: None}` dict returned when a
metric's positive-denominator precondition fails. -/
def invalidMetric (reason : String) : MetricResult :=
  { valid := false, value := Option.none, threshold := Option.none
    reason := some reason, validated_by := Option.none }

/-- `validate_roi`: ROI must be at least 1.5x.  Guard `costs <= 0`; compute
`roi = (revenue - costs) / costs`; consult Prolog when available and trust a
confirming exit unconditionally; otherwise compare against the threshold. -/
def validate_roi (v : PrologValidator) (revenue costs : ℚ) : MetricResult :=
  if costs ≤ 0 then invalidMetric "Costs must be positive"
  else
    let roi := (revenue - costs) / costs
    if v.prologAvailable && (queryProlog v.prologAvailable (v.roiOutcome revenue costs)).isSome then
      { valid := true, value := some roi, threshold := some (3/2)
        reason := Option.none, validated_by := some "prolog" }
    else
      { valid := decide (roi ≥ 3/2), value := some roi, threshold := some (3/2)
        reason := some (if roi ≥ 3/2 then "ROI acceptable" else "ROI below 1.5x threshold")
        validated_by := some "python" }

/-- `validate_ltv_cac`: LTV:CAC must be at least 3:1. -/
def validate_ltv_cac (v : PrologValidator) (ltv cac : ℚ) : MetricResult :=
  if cac ≤ 0 then invalidMetric "CAC must be positive"
  else
    let ratio := ltv / cac
    if v.prologAvailable && (queryProlog v.prologAvailable (v.ltvCacOutcome ltv cac)).isSome then
      { valid := true, value := some ratio, threshold := some 3
        reason := Option.none, validated_by := some "prolog" }
    else
      { valid := decide (ratio ≥ 3), value := some ratio, threshold := some 3
        reason := some (if ratio ≥ 3 then "Unit economics strong" else "LTV:CAC below 3:1 threshold")
        validated_by := some "python" }

/-- `validate_margin`: margin must be at least 20%. -/
def validate_margin (v : PrologValidator) (revenue costs : ℚ) : MetricResult :=
  if revenue ≤ 0 then invalidMetric "Revenue must be positive"
  else
    let margin := (revenue - costs) / revenue * 100
    if v.prologAvailable && (queryProlog v.prologAvailable (v.marginOutcome revenue costs)).isSome then
      { valid := true, value := some margin, threshold := some 20
        reason := Option.none, validated_by := some "prolog" }
    else
      { valid := decide (margin ≥ 20), value := some margin, threshold := some 20
        reason := some (if margin ≥ 20 then "Margin acceptable" else "Margin below 20% threshold")
        validated_by := some "python" }

/-- `validate_roi` called on context values, as the gates and the report do:
Python first orders `costs` against `0` (TypeError unless numeric; bools are
ints), returns the invalid dict — without touching `revenue` — when
`costs <= 0`, and only then evaluates `(revenue - costs) / costs`. -/
def validate_roiV (v : PrologValidator) (revenue costs : PyVal) : Except String MetricResult :=
  match costs.toNum with
  | Option.none => .error "TypeError: comparison with a non-number"
  | some c =>
    if c ≤ 0 then .ok (invalidMetric "Costs must be positive")
    else
      match revenue.toNum with
      | Option.none => .error "TypeError: arithmetic on a non-number"
      | some r => .ok (validate_roi v r c)

/-- `validate_ltv_cac` called on context values (the report path). -/
def validate_ltv_cacV (v : PrologValidator) (ltv cac : PyVal) : Except String MetricResult :=
  match cac.toNum with
  | Option.none => .error "TypeError: comparison with a non-number"
  | some c =>
    if c ≤ 0 then .ok (invalidMetric "CAC must be positive")
    else
      match ltv.toNum with
      | Option.none => .error "TypeError: arithmetic on a non-number"
      | some l => .ok (validate_ltv_cac v l c)

/-- A gate-result dict.  Fields a gate does not set (the unknown-phase result
sets only `valid` and `reason`) are `none`; reading an unset field raises
KeyError. -/
structure GateResult where
  valid : PyVal
  gate : Option String
  checks : List String
  decision : Option String
  reason : Option String
deriving Repr, DecidableEq

/-- `_validate_gate_p1` (P0 → P1: research complete, tier T1/T2).  The tier
defaults to `"t4"`; rendering `tier.upper()` raises AttributeError when the
context holds a non-string tier.  The gate's `valid` is the Python `and` of
the raw `research_complete` value and the tier membership bool. -/
def validate_gate_p1 (ctx : Ctx) : Except String GateResult × Ctx :=
  let (rc, ctx) := ctxGetS ctx "research_complete"
  let check1 := if rc.truthy then "✓ Research complete" else "✗ Research incomplete"
  let (tier, ctx) := ctxGetDS ctx "tier" (.str "t4")
  match tier with
  | .str s =>
    let tierOk := s == "t1" || s == "t2"
    let check2 :=
      if tierOk then "✓ Tier " ++ strUpper s ++ " (proceed)"
      else "✗ Tier " ++ strUpper s ++ " (no-go)"
    let (rc2, ctx) := ctxGetS ctx "research_complete"
    let valid := rc2.pyAnd (.bool tierOk)
    (.ok { valid := valid, gate := some "P0 → P1", checks := [check1, check2]
           decision := some (if valid.truthy then "PROCEED" else "HALT")
           reason := some (if valid.truthy then "Research validated, tier acceptable"
                           else "Research or tier insufficient") }, ctx)
  | _ => (.error "AttributeError: upper on a non-string tier", ctx)

/-- `_validate_gate_p2` (P1 → P2: business model sound, market validated).
`valid` is the Python `and` of the two raw context values — a falsy
non-boolean (for instance `None` for an absent key) flows through as-is. -/
def validate_gate_p2 (ctx : Ctx) : Except String GateResult × Ctx :=
  let (bms, ctx) := ctxGetS ctx "business_model_sound"
  let check1 := if bms.truthy then "✓ Business model sound" else "✗ Business model weak"
  let (mv, ctx) := ctxGetS ctx "market_validated"
  let check2 := if mv.truthy then "✓ Market validated" else "✗ Market not validated"
  let (bms2, ctx) := ctxGetS ctx "business_model_sound"
  let (mv2, ctx) := ctxGetS ctx "market_validated"
  let valid := bms2.pyAnd mv2
  (.ok { valid := valid, gate := some "P1 → P2", checks := [check1, check2]
         decision := some (if valid.truthy then "PROCEED" else "HALT")
         reason := Option.none }, ctx)

/-- The MIDAS block of `_validate_gate_p3` (and the actual-ROI block of
`_validate_gate_p5`): entered only when both context values are truthy; calls
`validate_roi` and renders one check line.  Formatting the `None` ROI of a
failed precondition with `:.2f` raises TypeError. -/
def roiCheckBlock (v : PrologValidator) (ctx : Ctx) (revKey costKey okPre failPre failSuf : String) :
    Except String (List String) × Ctx :=
  let (rev, ctx) := ctxGetS ctx revKey
  if rev.truthy then
    let (cst, ctx) := ctxGetS ctx costKey
    if cst.truthy then
      let (rev2, ctx) := ctxGetS ctx revKey
      let (cst2, ctx) := ctxGetS ctx costKey
      match validate_roiV v rev2 cst2 with
      | .error e => (.error e, ctx)
      | .ok r =>
        if r.valid then
          match r.value with
          | some q => (.ok [okPre ++ fmt2 q ++ "x"], ctx)
          | Option.none => (.error "TypeError: format of None", ctx)
        else
          match r.value with
          | some q => (.ok [failPre ++ fmt2 q ++ failSuf], ctx)
          | Option.none => (.error "TypeError: format of None", ctx)
    else (.ok [], ctx)
  else (.ok [], ctx)

/-- `_validate_gate_p3` (P2 → P3, the Week 6 gate).  Six possible sub-checks;
the MIDAS ROI check runs only when `revenue` and `costs` are truthy; `valid`
is derived by scanning the rendered check strings for the pass marker. -/
def validate_gate_p3 (v : PrologValidator) (ctx : Ctx) : Except String GateResult × Ctx :=
  let (bms, ctx) := ctxGetS ctx "business_model_sound"
  let c1 := if bms.truthy then "✓ AXIS: Business model sound" else "✗ AXIS: Business model weak"
  let (uc, ctx) := ctxGetS ctx "unvalidated_claims"
  let c2 := if !uc.truthy then "✓ BILL: No unvalidated claims" else "✗ BILL: Unvalidated claims exist"
  let (midas, ctx) := roiCheckBlock v ctx "revenue" "costs"
    "✓ MIDAS: ROI " "✗ MIDAS: ROI " "x (need 1.5x+)"
  match midas with
  | .error e => (.error e, ctx)
  | .ok midasChecks =>
    let (tl, ctx) := ctxGetS ctx "timeline_realistic"
    let c4 := if tl.truthy then "✓ GANTT: Timeline realistic" else "✗ GANTT: Timeline unrealistic"
    let (rm, ctx) := ctxGetS ctx "risks_mitigated"
    let c5 := if rm.truthy then "✓ SENECA: Risks mitigated" else "✗ SENECA: Risks not addressed"
    let (tsv, ctx) := ctxGetS ctx "tech_stack_validated"
    let c6 := if tsv.truthy then "✓ TURING: Tech stack validated" else "✗ TURING: Tech stack not validated"
    let checks := [c1, c2] ++ midasChecks ++ [c4, c5, c6]
    let allPassed := checks.all (fun s => substrOf "✓" s)
    (.ok { valid := .bool allPassed, gate := some "P2 → P3 (Week 6 - Sacred $100 decision)"
           checks := checks
           decision := some (if allPassed then "PROCEED (return $100)" else "HALT (keep $100)")
           reason := some (if allPassed then "All validation passed" else "Critical validation failed") }, ctx)

/-- `_validate_gate_p4` (P3 → P4: code complete, tests passing, deployment
ready).  Here `valid` is Python's `all(...)` over the three raw values, hence
a genuine bool. -/
def validate_gate_p4 (ctx : Ctx) : Except String GateResult × Ctx :=
  let (cc, ctx) := ctxGetS ctx "code_complete"
  let c1 := if cc.truthy then "✓ Code complete" else "✗ Code incomplete"
  let (tp, ctx) := ctxGetS ctx "tests_passing"
  let c2 := if tp.truthy then "✓ All tests passing" else "✗ Tests failing"
  let (dr, ctx) := ctxGetS ctx "deployment_ready"
  let c3 := if dr.truthy then "✓ Deployment ready" else "✗ Deployment not ready"
  let (cc2, ctx) := ctxGetS ctx "code_complete"
  let (tp2, ctx) := ctxGetS ctx "tests_passing"
  let (dr2, ctx) := ctxGetS ctx "deployment_ready"
  let valid := cc2.truthy && tp2.truthy && dr2.truthy
  (.ok { valid := .bool valid, gate := some "P3 → P4", checks := [c1, c2, c3]
         decision := some (if valid then "PROCEED" else "HALT")
         reason := Option.none }, ctx)

/-- `_validate_gate_p5` (P4 → P5, the Week 10 gate).  The actual-figures ROI
check runs only when `actual_revenue` and `actual_costs` are truthy; `valid`
again scans the rendered check strings. -/
def validate_gate_p5 (v : PrologValidator) (ctx : Ctx) : Except String GateResult × Ctx :=
  let (vc, ctx) := ctxGetS ctx "validation_complete"
  let c1 := if vc.truthy then "✓ Validation complete" else "✗ Validation incomplete"
  let (roiPart, ctx) := roiCheckBlock v ctx "actual_revenue" "actual_costs"
    "✓ Actual ROI: " "✗ Actual ROI: " "x (need 1.5x+)"
  match roiPart with
  | .error e => (.error e, ctx)
  | .ok roiChecks =>
    let (sp, ctx) := ctxGetS ctx "sustainability_proven"
    let c3 := if sp.truthy then "✓ Sustainability proven" else "✗ Sustainability not proven"
    let checks := [c1] ++ roiChecks ++ [c3]
    let allPassed := checks.all (fun s => substrOf "✓" s)
    (.ok { valid := .bool allPassed, gate := some "P4 → P5 (Week 10 - Sustainability check)"
           checks := checks
           decision := some (if allPassed then "PROCEED (iterate)" else "HALT (pivot or kill)")
           reason := some (if allPassed then "Sustainable" else "Not sustainable") }, ctx)

/-- `validate_phase_gate`: dispatch on the phase identifier; an identifier
outside `p1`…`p5` yields `{"valid": False, "reason": "Unknown phase: <id>"}`
(a dict with only those two keys) instead of raising. -/
def validate_phase_gate (v : PrologValidator) (phase : String) (ctx : Ctx) :
    Except String GateResult × Ctx :=
  if phase == "p1" then validate_gate_p1 ctx
  else if phase == "p2" then validate_gate_p2 ctx
  else if phase == "p3" then validate_gate_p3 v ctx
  else if phase == "p4" then validate_gate_p4 ctx
  else if phase == "p5" then validate_gate_p5 v ctx
  else
    (.ok { valid := .bool false, gate := Option.none, checks := []
           decision := Option.none, reason := some ("Unknown phase: " ++ phase) }, ctx)

/-- The dict `_check_simpler_alternative` returns. -/
structure SimplerCheck where
  valid : Bool
  alternative : Option String
deriving Repr, DecidableEq

/-- The allow-list of simple/well-understood technologies. -/
def simple_choices : List String :=
  ["fastapi", "flask", "go", "htmx", "alpine", "tailwind", "postgres", "sqlite"]

/-- The complex-technology-substring to suggested-alternative mapping, in the
source's insertion order. -/
def complexAlternatives : List (String × String) :=
  [("react", "Consider HTMX + Alpine.js for simpler SSR"),
   ("angular", "Consider HTMX or plain JS"),
   ("kubernetes", "Consider Fly.io or Heroku unless 10K+ users"),
   ("microservices", "Start with monolith, split later"),
   ("mongodb", "Use PostgreSQL unless specific need validated")]

/-- `_check_simpler_alternative`: allow-list substring match passes outright;
otherwise the first matching complex substring fails with its suggested
alternative; anything else passes. -/
def check_simpler_alternative (tech : String) : SimplerCheck :=
  let techLower := strLower tech
  if simple_choices.any (fun s => substrOf s techLower) then
    { valid := true, alternative := Option.none }
  else
    match complexAlternatives.find? (fun p => substrOf p.1 techLower) with
    | some p => { valid := false, alternative := some p.2 }
    | Option.none => { valid := true, alternative := Option.none }

/-- `_check_ai_friendly`: not on the generation-unfriendly deny-list. -/
def check_ai_friendly (tech : String) : Bool :=
  !(["react", "angular", "vue", "django"].any (fun s => substrOf s (strLower tech)))

/-- `_check_deploy_simple`: not on the orchestration-deployment deny-list. -/
def check_deploy_simple (tech : String) : Bool :=
  !(["kubernetes", "k8s", "docker-compose"].any (fun s => substrOf s (strLower tech)))

/-- One technology's record in the audit: the `warning` key is set (from the
suggested alternative) exactly when the complexity check failed. -/
structure TechRecord where
  tech : String
  simpler_checked : Bool
  ai_friendly : Bool
  deploy_simple : Bool
  recommendation : String
  warning : Option String
deriving Repr, DecidableEq

/-- The loop body of `validate_tech_stack` for one technology name. -/
def auditTech (tech : String) : TechRecord :=
  let simpler := check_simpler_alternative tech
  let aiFriendly := check_ai_friendly tech
  let deploySimple := check_deploy_simple tech
  { tech := tech
    simpler_checked := simpler.valid
    ai_friendly := aiFriendly
    deploy_simple := deploySimple
    recommendation :=
      if simpler.valid && aiFriendly && deploySimple then "✓ Approved" else "⚠ Reconsider"
    warning := if simpler.valid then Option.none else simpler.alternative }

/-- The aggregate result of `validate_tech_stack`. -/
structure TechStackResult where
  valid : Bool
  tech_choices : List TechRecord
  overall : String
deriving Repr, DecidableEq

/-- `validate_tech_stack`: audit each choice; the stack is approved iff every
per-technology recommendation is the approval string. -/
def validate_tech_stack (techChoices : List String) : TechStackResult :=
  let results := techChoices.map auditTech
  let allValid := results.all (fun r => r.recommendation == "✓ Approved")
  { valid := allValid
    tech_choices := results
    overall := if allValid then "Stack approved" else "Stack needs review" }

/-- The ROI section of the report (emitted when `revenue` and `costs` are both
present): formatting the `None` ROI of a failed precondition raises TypeError,
and reading the `threshold` key absent from the invalid dict raises KeyError. -/
def reportRoiSection (v : PrologValidator) (ctx : Ctx) : Except String (List String) × Ctx :=
  let (rev, ctx) := ctxGetS ctx "revenue"
  let (cst, ctx) := ctxGetS ctx "costs"
  match validate_roiV v rev cst with
  | .error e => (.error e, ctx)
  | .ok r =>
    match r.value with
    | Option.none => (.error "TypeError: format of None", ctx)
    | some q =>
      match r.threshold with
      | Option.none => (.error "KeyError: threshold", ctx)
      | some t =>
        (.ok ["## ROI Validation",
              "- ROI: " ++ fmt2 q ++ "x (threshold: " ++ fmt1 t ++ "x)",
              "- Status: " ++ (if r.valid then "✓ PASS" else "✗ FAIL"),
              ""], ctx)

/-- The unit-economics section of the report (emitted when `ltv` and `cac` are
both present). -/
def reportLtvSection (v : PrologValidator) (ctx : Ctx) : Except String (List String) × Ctx :=
  let (ltv, ctx) := ctxGetS ctx "ltv"
  let (cac, ctx) := ctxGetS ctx "cac"
  match validate_ltv_cacV v ltv cac with
  | .error e => (.error e, ctx)
  | .ok r =>
    match r.value with
    | Option.none => (.error "TypeError: format of None", ctx)
    | some q =>
      match r.threshold with
      | Option.none => (.error "KeyError: threshold", ctx)
      | some t =>
        (.ok ["## Unit Economics Validation",
              "- LTV:CAC: " ++ fmt2 q ++ " (threshold: " ++ fmt1 t ++ ")",
              "- Status: " ++ (if r.valid then "✓ PASS" else "✗ FAIL"),
              ""], ctx)

/-- The phase-gate section (emitted when `current_phase` is present): a
non-string phase value still renders the unknown-phase dict, and reading the
`gate` key — absent from that dict — raises KeyError. -/
def reportGateSection (v : PrologValidator) (ctx : Ctx) : Except String (List String) × Ctx :=
  let (ph, ctx) := ctxGetS ctx "current_phase"
  let (gres, ctx) :=
    match ph with
    | .str s => validate_phase_gate v s ctx
    | other =>
      (.ok { valid := .bool false, gate := Option.none, checks := []
             decision := Option.none
             reason := some ("Unknown phase: " ++ pyToDisplay other) }, ctx)
  match gres with
  | .error e => (.error e, ctx)
  | .ok g =>
    match g.gate with
    | Option.none => (.error "KeyError: gate", ctx)
    | some gname =>
      match g.decision with
      | Option.none => (.error "KeyError: decision", ctx)
      | some dec =>
        (.ok (["## Phase Gate: " ++ gname]
              ++ g.checks.map (fun c => "- " ++ c)
              ++ ["- Decision: **" ++ dec ++ "**", ""]), ctx)

/-- The tech-stack section (emitted when `tech_stack` is present): iterating a
string value audits its characters one by one; a non-iterable value raises
TypeError. -/
def reportTechSection (ctx : Ctx) : Except String (List String) × Ctx :=
  let (ts, ctx) := ctxGetS ctx "tech_stack"
  let choices : Except String (List String) :=
    match ts with
    | .strlist l => .ok l
    | .str s => .ok (s.data.map (fun ch => String.mk [ch]))
    | _ => .error "TypeError: not iterable"
  match choices with
  | .error e => (.error e, ctx)
  | .ok l =>
    let tr := validate_tech_stack l
    (.ok (["## Tech Stack Validation"]
          ++ (tr.tech_choices.flatMap (fun t =>
                ["- " ++ t.tech ++ ": " ++ t.recommendation]
                ++ (match t.warning with
                    | some w => ["  ⚠ " ++ w]
                    | Option.none => [])))
          ++ [""]), ctx)

/-- `generate_validation_report`: the header followed by the ROI,
unit-economics, phase-gate and tech-stack sections, each emitted only when its
inputs are present, joined with newlines. -/
def generate_validation_report (v : PrologValidator) (ctx : Ctx) : Except String String × Ctx :=
  let (hasRev, ctx) := ctxHasS ctx "revenue"
  let (hasCst, ctx) := ctxHasS ctx "costs"
  let (sec1, ctx) :=
    if hasRev && hasCst then reportRoiSection v ctx else (.ok [], ctx)
  match sec1 with
  | .error e => (.error e, ctx)
  | .ok lines1 =>
    let (hasLtv, ctx) := ctxHasS ctx "ltv"
    let (hasCac, ctx) := ctxHasS ctx "cac"
    let (sec2, ctx) :=
      if hasLtv && hasCac then reportLtvSection v ctx else (.ok [], ctx)
    match sec2 with
    | .error e => (.error e, ctx)
    | .ok lines2 =>
      let (hasPhase, ctx) := ctxHasS ctx "current_phase"
      let (sec3, ctx) :=
        if hasPhase then reportGateSection v ctx else (.ok [], ctx)
      match sec3 with
      | .error e => (.error e, ctx)
      | .ok lines3 =>
        let (hasTech, ctx) := ctxHasS ctx "tech_stack"
        let (sec4, ctx) :=
          if hasTech then reportTechSection ctx else (.ok [], ctx)
        match sec4 with
        | .error e => (.error e, ctx)
        | .ok lines4 =>
          (.ok (String.intercalate "\n"
            (["# Validation Report\n"] ++ lines1 ++ lines2 ++ lines3 ++ lines4)), ctx)

/-- Modelled from the spec: the Prolog rule file `validation_core.pl` that
`_query_prolog` consults is not among the repository's source files.  Per §4.1
the fallback threshold comparison is the ground truth the external engine
validates against, so the modelled engine's `roi_positive` (and sibling)
queries exit with code 0 exactly when the corresponding fallback threshold
holds, and with code 1 otherwise. -/
def specPrologValidator : PrologValidator :=
  { prologAvailable := true
    roiOutcome := fun revenue costs =>
      if (revenue - costs) / costs ≥ 3/2 then .exited 0 else .exited 1
    ltvCacOutcome := fun ltv cac =>
      if ltv / cac ≥ 3 then .exited 0 else .exited 1
    marginOutcome := fun revenue costs =>
      if (revenue - costs) / revenue * 100 ≥ 20 then .exited 0 else .exited 1 }

/-- A context whose revenue evidence is present but zero (hence falsy). -/
def zeroRevenueCtx : Ctx := [("revenue", PyVal.num 0), ("costs", PyVal.num 100)]

/-- The P3 → P4 gate's result on the empty context. -/
def gateP4EmptyResult : GateResult :=
  { valid := .bool false, gate := some "P3 → P4"
    checks := ["✗ Code incomplete", "✗ Tests failing", "✗ Deployment not ready"]
    decision := some "HALT", reason := Option.none }

/-- The P2 → P3 gate's result on the empty context. -/
def gateP3EmptyResult : GateResult :=
  { valid := .bool false, gate := some "P2 → P3 (Week 6 - Sacred $100 decision)"
    checks := ["✗ AXIS: Business model weak", "✓ BILL: No unvalidated claims",
      "✗ GANTT: Timeline unrealistic", "✗ SENECA: Risks not addressed",
      "✗ TURING: Tech stack not validated"]
    decision := some "HALT (keep $100)", reason := some "Critical validation failed" }

/-- The P0 → P1 gate's result on the empty context. -/
def gateP1EmptyResult : GateResult :=
  { valid := PyVal.none, gate := some "P0 → P1"
    checks := ["✗ Research incomplete", "✗ Tier T4 (no-go)"]
    decision := some "HALT", reason := some "Research or tier insufficient" }

/-! ### Helper lemmas -/

theorem truthy_pyAnd (a b : PyVal) : (a.pyAnd b).truthy = (a.truthy && b.truthy) := by
  unfold PyVal.pyAnd
  by_cases h : a.truthy = true
  · simp [h]
  · simp [Bool.not_eq_true] at h
    simp [h]

theorem listIsPre_append (n h t : List Char) (hp : listIsPre n h = true) :
    listIsPre n (h ++ t) = true := by
  induction n generalizing h with
  | nil => simp [listIsPre]
  | cons c cs ih =>
    cases h with
    | nil => simp [listIsPre] at hp
    | cons d ds =>
      simp only [listIsPre, Bool.and_eq_true] at hp
      simp only [List.cons_append, listIsPre, Bool.and_eq_true]
      exact ⟨hp.1, ih ds hp.2⟩

theorem listContains_nil_needle (l : List Char) : listContains [] l = true := by
  induction l with
  | nil => rfl
  | cons h t ih => simp [listContains, listIsPre, ih]

theorem listContains_append (n a b : List Char) (hc : listContains n a = true) :
    listContains n (a ++ b) = true := by
  induction a with
  | nil =>
    cases n with
    | nil => simpa using listContains_nil_needle b
    | cons c cs => simp [listContains, listIsPre] at hc
  | cons x xs ih =>
    simp only [listContains, Bool.or_eq_true] at hc
    simp only [List.cons_append, listContains, Bool.or_eq_true]
    rcases hc with hc | hc
    · exact Or.inl (listIsPre_append n (x :: xs) b hc)
    · exact Or.inr (ih hc)

theorem substrOf_append_left (n a b : String) (h : substrOf n a = true) :
    substrOf n (a ++ b) = true := by
  unfold substrOf at h ⊢
  rw [String.data_append]
  exact listContains_append n.data a.data b.data h

theorem substr_if (b : Bool) (needle y n : String) (hy : substrOf needle y = true)
    (hn : substrOf needle n = false) : substrOf needle (if b then y else n) = b := by
  cases b <;> simp [hy, hn]

theorem substr_if_neg (b : Bool) (needle y n : String) (hy : substrOf needle y = false)
    (hn : substrOf needle n = false) : substrOf needle (if b then y else n) = false := by
  cases b <;> simp [hy, hn]

theorem roiCheckBlock_ctx (v : PrologValidator) (ctx : Ctx) (rk ck a b c : String) :
    (roiCheckBlock v ctx rk ck a b c).2 = ctx := by
  unfold roiCheckBlock
  simp only [ctxGetS]
  repeat' split <;> try rfl

theorem gate_p1_ctx (ctx : Ctx) : (validate_gate_p1 ctx).2 = ctx := by
  unfold validate_gate_p1
  simp only [ctxGetS, ctxGetDS]
  split <;> rfl

theorem gate_p2_ctx (ctx : Ctx) : (validate_gate_p2 ctx).2 = ctx := rfl

theorem gate_p3_ctx (v : PrologValidator) (ctx : Ctx) : (validate_gate_p3 v ctx).2 = ctx := by
  unfold validate_gate_p3
  simp only [ctxGetS, roiCheckBlock_ctx]
  cases (roiCheckBlock v ctx "revenue" "costs" "✓ MIDAS: ROI " "✗ MIDAS: ROI " "x (need 1.5x+)").1 <;> rfl

theorem gate_p4_ctx (ctx : Ctx) : (validate_gate_p4 ctx).2 = ctx := rfl

theorem gate_p5_ctx (v : PrologValidator) (ctx : Ctx) : (validate_gate_p5 v ctx).2 = ctx := by
  unfold validate_gate_p5
  simp only [ctxGetS, roiCheckBlock_ctx]
  cases (roiCheckBlock v ctx "actual_revenue" "actual_costs" "✓ Actual ROI: " "✗ Actual ROI: " "x (need 1.5x+)").1 <;> rfl

theorem phase_gate_ctx (v : PrologValidator) (phase : String) (ctx : Ctx) :
    (validate_phase_gate v phase ctx).2 = ctx := by
  unfold validate_phase_gate
  repeat' split
  · exact gate_p1_ctx ctx
  · exact gate_p2_ctx ctx
  · exact gate_p3_ctx v ctx
  · exact gate_p4_ctx ctx
  · exact gate_p5_ctx v ctx
  · rfl

theorem reportRoiSection_ctx (v : PrologValidator) (ctx : Ctx) :
    (reportRoiSection v ctx).2 = ctx := by
  unfold reportRoiSection
  simp only [ctxGetS]
  repeat' split <;> try rfl

theorem reportLtvSection_ctx (v : PrologValidator) (ctx : Ctx) :
    (reportLtvSection v ctx).2 = ctx := by
  unfold reportLtvSection
  simp only [ctxGetS]
  repeat' split <;> try rfl

theorem reportGateSection_ctx (v : PrologValidator) (ctx : Ctx) :
    (reportGateSection v ctx).2 = ctx := by
  unfold reportGateSection
  simp only [ctxGetS]
  rcases hph : ctxGet ctx "current_phase" with _ | b | q | s | l
  all_goals simp only [phase_gate_ctx]
  all_goals repeat' split
  all_goals rfl

theorem reportTechSection_ctx (ctx : Ctx) : (reportTechSection ctx).2 = ctx := by
  unfold reportTechSection
  simp only [ctxGetS]
  repeat' split <;> try rfl

theorem report_ctx (v : PrologValidator) (ctx : Ctx) :
    (generate_validation_report v ctx).2 = ctx := by
  unfold generate_validation_report
  simp only [ctxHasS]
  have h1 : (if (ctxHas ctx "revenue" && ctxHas ctx "costs") = true
      then reportRoiSection v ctx
      else ((Except.ok [] : Except String (List String)), ctx)).2 = ctx := by
    split
    · exact reportRoiSection_ctx v ctx
    · rfl
  simp only [h1]
  have h2 : (if (ctxHas ctx "ltv" && ctxHas ctx "cac") = true
      then reportLtvSection v ctx
      else ((Except.ok [] : Except String (List String)), ctx)).2 = ctx := by
    split
    · exact reportLtvSection_ctx v ctx
    · rfl
  simp only [h2]
  have h3 : (if ctxHas ctx "current_phase" = true
      then reportGateSection v ctx
      else ((Except.ok [] : Except String (List String)), ctx)).2 = ctx := by
    split
    · exact reportGateSection_ctx v ctx
    · rfl
  simp only [h3]
  have h4 : (if ctxHas ctx "tech_stack" = true
      then reportTechSection ctx
      else ((Except.ok [] : Except String (List String)), ctx)).2 = ctx := by
    split
    · exact reportTechSection_ctx ctx
    · rfl
  simp only [h4]
  repeat' split
  all_goals rfl

theorem listContains_singleton (c : Char) (l : List Char) :
    listContains [c] l = l.any (fun d => c == d) := by
  induction l with
  | nil => rfl
  | cons h t ih => simp [listContains, listIsPre, ih]

theorem digitChar_ne_tick (n : Nat) : ('✓' == digitChar n) = false := by
  unfold digitChar
  split <;> decide

theorem natDigitsCore_ne_tick (fuel n : Nat) :
    (natDigitsCore fuel n).any (fun d => '✓' == d) = false := by
  induction fuel generalizing n with
  | zero => rfl
  | succ fuel ih =>
    unfold natDigitsCore
    split
    · simp only [List.any_cons, List.any_nil, Bool.or_false]
      exact digitChar_ne_tick n
    · rw [List.any_append, ih]
      simp only [Bool.false_or, List.any_cons, List.any_nil, Bool.or_false]
      exact digitChar_ne_tick (n % 10)

theorem fmt2_no_tick (q : ℚ) : substrOf "✓" (fmt2 q) = false := by
  unfold substrOf fmt2 natToStr
  rw [show ("✓" : String).data = ['✓'] from rfl]
  rw [listContains_singleton]
  simp only [String.data_append]
  simp [List.any_append, natDigitsCore_ne_tick]
  constructor
  · split <;> decide
  · split <;> decide

theorem substr_tick_append (a b : String) :
    substrOf "✓" (a ++ b) = (substrOf "✓" a || substrOf "✓" b) := by
  unfold substrOf
  simp only [String.data_append, show ("✓" : String).data = ['✓'] from rfl,
    listContains_singleton, List.any_append]

theorem checkPassed_append (a b : String) (ha : a.data ≠ []) :
    checkPassed (a ++ b) = checkPassed a := by
  unfold checkPassed
  rw [String.data_append]
  rcases hd : a.data with _ | ⟨c, cs⟩
  · exact absurd hd ha
  · simp [listIsPre]

theorem roiCheckBlock_skip (v : PrologValidator) (ctx : Ctx) (rk ck a b c : String)
    (h : ((ctxGet ctx rk).truthy && (ctxGet ctx ck).truthy) = false) :
    (roiCheckBlock v ctx rk ck a b c).1 = .ok [] := by
  unfold roiCheckBlock
  simp only [ctxGetS]
  rcases hr : (ctxGet ctx rk).truthy with _ | _ <;>
    rcases hc : (ctxGet ctx ck).truthy with _ | _ <;>
      simp_all

theorem roiCheckBlock_hit (v : PrologValidator) (ctx : Ctx) (rk ck a b c : String)
    (l : List String)
    (ht : ((ctxGet ctx rk).truthy && (ctxGet ctx ck).truthy) = true)
    (h : (roiCheckBlock v ctx rk ck a b c).1 = .ok l) :
    ∃ q, l = [a ++ fmt2 q ++ "x"] ∨ l = [b ++ fmt2 q ++ c] := by
  rw [Bool.and_eq_true] at ht
  unfold roiCheckBlock at h
  simp only [ctxGetS, ht.1, ht.2, if_true] at h
  rcases hv : validate_roiV v (ctxGet ctx rk) (ctxGet ctx ck) with e | r <;> rw [hv] at h
  · simp at h
  · dsimp only at h
    split at h
    · split at h
      · dsimp only at h
        simp only [Except.ok.injEq] at h
        exact ⟨_, Or.inl h.symm⟩
      · dsimp only at h
        simp at h
    · split at h
      · dsimp only at h
        simp only [Except.ok.injEq] at h
        exact ⟨_, Or.inr h.symm⟩
      · dsimp only at h
        simp at h

theorem roiCheckBlock_elems (v : PrologValidator) (ctx : Ctx) (rk ck a b c : String)
    (l : List String) (h : (roiCheckBlock v ctx rk ck a b c).1 = .ok l) :
    l = [] ∨ ∃ q, l = [a ++ fmt2 q ++ "x"] ∨ l = [b ++ fmt2 q ++ c] := by
  rcases ht : ((ctxGet ctx rk).truthy && (ctxGet ctx ck).truthy) with _ | _
  · rw [roiCheckBlock_skip v ctx rk ck a b c ht] at h
    exact Or.inl (by simpa using h.symm)
  · exact Or.inr (roiCheckBlock_hit v ctx rk ck a b c l ht h)

theorem all_eq_of_mem_eq {l : List String} {f g : String → Bool}
    (h : ∀ x ∈ l, f x = g x) : l.all f = l.all g := by
  induction l with
  | nil => rfl
  | cons a t ih =>
    have ha : f a = g a := h a (List.mem_cons_self a t)
    have ht : t.all f = t.all g := ih fun x hx => h x (List.mem_cons_of_mem a hx)
    simp only [List.all_cons, ha, ht]

theorem checkPassed_append2 (a b c : String) (ha : a.data ≠ []) :
    checkPassed ((a ++ b) ++ c) = checkPassed a := by
  rw [checkPassed_append (a ++ b) c, checkPassed_append a b ha]
  rw [String.data_append]
  intro hh
  exact ha (List.append_eq_nil.mp hh).1

theorem truthy_bool (b : Bool) : (PyVal.bool b).truthy = b := rfl

theorem gate_p1_valid (ctx : Ctx) (r : GateResult) (h : (validate_gate_p1 ctx).1 = .ok r) :
    r.valid.truthy = r.checks.all checkPassed := by
  unfold validate_gate_p1 at h
  simp only [ctxGetS, ctxGetDS] at h
  split at h
  · rename_i tv sv heq
    dsimp only at h
    simp only [Except.ok.injEq] at h
    subst h
    simp only [truthy_pyAnd, truthy_bool, List.all_cons, List.all_nil, Bool.and_true]
    have hb : (sv == "t1" || sv == "t2") = decide (sv = "t1" ∨ sv = "t2") := by
      by_cases h1 : sv = "t1" <;> by_cases h2 : sv = "t2" <;> simp [h1, h2]
    rw [hb]
    by_cases htier : sv = "t1" ∨ sv = "t2" <;>
      by_cases hrc : (ctxGet ctx "research_complete").truthy = true <;>
      simp [htier, hrc, Bool.not_eq_true] at * <;>
      simp [htier, hrc, checkPassed_append2, show ("✓ Tier " : String).data ≠ [] from (by decide),
        show ("✗ Tier " : String).data ≠ [] from (by decide),
        show checkPassed "✓ Research complete" = true from (by decide),
        show checkPassed "✗ Research incomplete" = false from (by decide),
        show checkPassed "✓ Tier " = true from (by decide),
        show checkPassed "✗ Tier " = false from (by decide)]
  · dsimp only at h
    simp at h

theorem gate_p2_valid (ctx : Ctx) (r : GateResult) (h : (validate_gate_p2 ctx).1 = .ok r) :
    r.valid.truthy = r.checks.all checkPassed := by
  unfold validate_gate_p2 at h
  simp only [ctxGetS] at h
  simp only [Except.ok.injEq] at h
  subst h
  simp only [truthy_pyAnd, List.all_cons, List.all_nil, Bool.and_true]
  by_cases hb : (ctxGet ctx "business_model_sound").truthy = true <;>
    by_cases hm : (ctxGet ctx "market_validated").truthy = true <;>
    simp [hb, hm, Bool.not_eq_true] at * <;>
    simp [hb, hm, show checkPassed "✓ Business model sound" = true from (by decide),
      show checkPassed "✗ Business model weak" = false from (by decide),
      show checkPassed "✓ Market validated" = true from (by decide),
      show checkPassed "✗ Market not validated" = false from (by decide)]

theorem gate_p4_valid (ctx : Ctx) (r : GateResult) (h : (validate_gate_p4 ctx).1 = .ok r) :
    r.valid.truthy = r.checks.all checkPassed := by
  unfold validate_gate_p4 at h
  simp only [ctxGetS] at h
  simp only [Except.ok.injEq] at h
  subst h
  simp only [truthy_bool, List.all_cons, List.all_nil, Bool.and_true]
  by_cases hc : (ctxGet ctx "code_complete").truthy = true <;>
    by_cases ht : (ctxGet ctx "tests_passing").truthy = true <;>
    by_cases hd : (ctxGet ctx "deployment_ready").truthy = true <;>
    simp [hc, ht, hd, Bool.not_eq_true] at * <;>
    simp [hc, ht, hd, show checkPassed "✓ Code complete" = true from (by decide),
      show checkPassed "✗ Code incomplete" = false from (by decide),
      show checkPassed "✓ All tests passing" = true from (by decide),
      show checkPassed "✗ Tests failing" = false from (by decide),
      show checkPassed "✓ Deployment ready" = true from (by decide),
      show checkPassed "✗ Deployment not ready" = false from (by decide)]

theorem tick_fmt2_append (a c : String) (q : ℚ) :
    substrOf "✓" ((a ++ fmt2 q) ++ c) = (substrOf "✓" a || substrOf "✓" c) := by
  rw [substr_tick_append, substr_tick_append, fmt2_no_tick, Bool.or_false]

theorem gate_p3_valid (v : PrologValidator) (ctx : Ctx) (r : GateResult)
    (h : (validate_gate_p3 v ctx).1 = .ok r) :
    r.valid.truthy = r.checks.all checkPassed := by
  unfold validate_gate_p3 at h
  simp only [ctxGetS] at h
  split at h
  · dsimp only at h
    simp at h
  · rename_i l heq
    dsimp only at h
    simp only [Except.ok.injEq] at h
    subst h
    simp only [truthy_bool]
    apply all_eq_of_mem_eq
    intro x hx
    simp only [List.mem_append, List.mem_cons, List.not_mem_nil, or_false] at hx
    rcases hx with ((rfl | rfl) | hx) | (rfl | rfl | rfl)
    · split <;> decide
    · split <;> decide
    · rcases roiCheckBlock_elems v ctx _ _ _ _ _ l heq with rfl | ⟨q, rfl | rfl⟩
      · simp at hx
      · simp only [List.mem_singleton] at hx
        subst hx
        rw [tick_fmt2_append, checkPassed_append2 _ _ _ (by decide)]
        decide
      · simp only [List.mem_singleton] at hx
        subst hx
        rw [tick_fmt2_append, checkPassed_append2 _ _ _ (by decide)]
        decide
    · split <;> decide
    · split <;> decide
    · split <;> decide

theorem gate_p5_valid (v : PrologValidator) (ctx : Ctx) (r : GateResult)
    (h : (validate_gate_p5 v ctx).1 = .ok r) :
    r.valid.truthy = r.checks.all checkPassed := by
  unfold validate_gate_p5 at h
  simp only [ctxGetS] at h
  split at h
  · dsimp only at h
    simp at h
  · rename_i l heq
    dsimp only at h
    simp only [Except.ok.injEq] at h
    subst h
    simp only [truthy_bool]
    apply all_eq_of_mem_eq
    intro x hx
    simp only [List.mem_append, List.mem_cons, List.not_mem_nil, or_false] at hx
    rcases hx with (rfl | hx) | rfl
    · split <;> decide
    · rcases roiCheckBlock_elems v ctx _ _ _ _ _ l heq with rfl | ⟨q, rfl | rfl⟩
      · simp at hx
      · simp only [List.mem_singleton] at hx
        subst hx
        rw [tick_fmt2_append, checkPassed_append2 _ _ _ (by decide)]
        decide
      · simp only [List.mem_singleton] at hx
        subst hx
        rw [tick_fmt2_append, checkPassed_append2 _ _ _ (by decide)]
        decide
    · split <;> decide

theorem gate_p3_midas (v : PrologValidator) (ctx : Ctx) (r : GateResult)
    (h : (validate_gate_p3 v ctx).1 = .ok r) :
    r.checks.any (fun s => substrOf "MIDAS" s)
      = ((ctxGet ctx "revenue").truthy && (ctxGet ctx "costs").truthy) := by
  unfold validate_gate_p3 at h
  simp only [ctxGetS] at h
  split at h
  · dsimp only at h
    simp at h
  · rename_i l heq
    dsimp only at h
    simp only [Except.ok.injEq] at h
    subst h
    simp only [List.any_append, List.any_cons, List.any_nil, Bool.or_false]
    have h1 : ∀ (cond : Prop) [Decidable cond] (y n : String),
        substrOf "MIDAS" y = false → substrOf "MIDAS" n = false →
        substrOf "MIDAS" (if cond then y else n) = false := by
      intro cond _ y n hy hn
      split <;> assumption
    rw [h1 _ _ _ (by decide) (by decide), h1 _ _ _ (by decide) (by decide),
      h1 _ _ _ (by decide) (by decide), h1 _ _ _ (by decide) (by decide),
      h1 _ _ _ (by decide) (by decide)]
    simp only [Bool.false_or, Bool.or_false]
    rcases htg : ((ctxGet ctx "revenue").truthy && (ctxGet ctx "costs").truthy) with _ | _
    · rw [roiCheckBlock_skip v ctx _ _ _ _ _ htg] at heq
      simp only [Except.ok.injEq] at heq
      subst heq
      rfl
    · rcases roiCheckBlock_hit v ctx _ _ _ _ _ l htg heq with ⟨q, rfl | rfl⟩
      · simp only [List.any_cons, List.any_nil, Bool.or_false]
        exact substrOf_append_left _ _ _ (substrOf_append_left _ _ _ (by decide))
      · simp only [List.any_cons, List.any_nil, Bool.or_false]
        exact substrOf_append_left _ _ _ (substrOf_append_left _ _ _ (by decide))

theorem gate_p5_roi (v : PrologValidator) (ctx : Ctx) (r : GateResult)
    (h : (validate_gate_p5 v ctx).1 = .ok r) :
    r.checks.any (fun s => substrOf "Actual ROI" s)
      = ((ctxGet ctx "actual_revenue").truthy && (ctxGet ctx "actual_costs").truthy) := by
  unfold validate_gate_p5 at h
  simp only [ctxGetS] at h
  split at h
  · dsimp only at h
    simp at h
  · rename_i l heq
    dsimp only at h
    simp only [Except.ok.injEq] at h
    subst h
    simp only [List.any_append, List.any_cons, List.any_nil, Bool.or_false]
    have h1 : ∀ (cond : Prop) [Decidable cond] (y n : String),
        substrOf "Actual ROI" y = false → substrOf "Actual ROI" n = false →
        substrOf "Actual ROI" (if cond then y else n) = false := by
      intro cond _ y n hy hn
      split <;> assumption
    rw [h1 _ _ _ (by decide) (by decide), h1 _ _ _ (by decide) (by decide)]
    simp only [Bool.false_or, Bool.or_false]
    rcases htg : ((ctxGet ctx "actual_revenue").truthy && (ctxGet ctx "actual_costs").truthy)
      with _ | _
    · rw [roiCheckBlock_skip v ctx _ _ _ _ _ htg] at heq
      simp only [Except.ok.injEq] at heq
      subst heq
      rfl
    · rcases roiCheckBlock_hit v ctx _ _ _ _ _ l htg heq with ⟨q, rfl | rfl⟩
      · simp only [List.any_cons, List.any_nil, Bool.or_false]
        exact substrOf_append_left _ _ _ (substrOf_append_left _ _ _ (by decide))
      · simp only [List.any_cons, List.any_nil, Bool.or_false]
        exact substrOf_append_left _ _ _ (substrOf_append_left _ _ _ (by decide))

/-! ### Claim theorems -/

/-- C1: for every revenue and positive costs, the validity verdict on the
external-engine path (modelled from the spec: the engine confirms exactly when
the fallback threshold holds) equals the fallback verdict, and an
external-confirmed result agrees with the threshold comparison. -/
theorem roi_external_and_fallback_agree (revenue costs : ℚ) (h : 0 < costs) :
    (validate_roi specPrologValidator revenue costs).valid
      = (validate_roi pythonOnlyValidator revenue costs).valid
    ∧ ((validate_roi specPrologValidator revenue costs).validated_by = some "prolog" →
        (validate_roi specPrologValidator revenue costs).valid
          = decide ((revenue - costs) / costs ≥ 3/2)) := by
  have hc : ¬(costs ≤ 0) := not_le.mpr h
  by_cases hq : (revenue - costs) / costs ≥ 3/2 <;>
    simp [validate_roi, specPrologValidator, pythonOnlyValidator, queryProlog, hc, hq]

theorem roi_external_and_fallback_agree_witness :
    ((validate_roi specPrologValidator 300000 100000).valid
      = (validate_roi pythonOnlyValidator 300000 100000).valid)
    ∧ ((validate_roi specPrologValidator 300000 100000).validated_by = some "prolog" →
        (validate_roi specPrologValidator 300000 100000).valid
          = decide (((300000 : ℚ) - 100000) / 100000 ≥ 3/2)) :=
  roi_external_and_fallback_agree 300000 100000 (by norm_num)

/-- C3: with the external engine unavailable, `validate_roi` on positive costs
reports exactly the ratio `(revenue - costs) / costs` and is valid exactly when
that ratio reaches the 1.5 threshold. -/
theorem roi_fallback_formula (v : PrologValidator) (revenue costs : ℚ)
    (hav : v.prologAvailable = false) (h : 0 < costs) :
    (validate_roi v revenue costs).valid = decide ((revenue - costs) / costs ≥ 3/2)
    ∧ (validate_roi v revenue costs).value = some ((revenue - costs) / costs) := by
  have hc : ¬(costs ≤ 0) := not_le.mpr h
  simp [validate_roi, hav, hc]

theorem roi_fallback_formula_witness :
    ((validate_roi pythonOnlyValidator 300000 100000).valid
      = decide (((300000 : ℚ) - 100000) / 100000 ≥ 3/2))
    ∧ (validate_roi pythonOnlyValidator 300000 100000).value
      = some (((300000 : ℚ) - 100000) / 100000) :=
  roi_fallback_formula pythonOnlyValidator 300000 100000 rfl (by norm_num)

theorem validate_roi_invalid (v : PrologValidator) (revenue costs : ℚ) (hc : costs ≤ 0) :
    validate_roi v revenue costs = invalidMetric "Costs must be positive" := by
  unfold validate_roi
  rw [if_pos hc]

theorem validate_ltv_cac_invalid (v : PrologValidator) (ltv cac : ℚ) (hc : cac ≤ 0) :
    validate_ltv_cac v ltv cac = invalidMetric "CAC must be positive" := by
  unfold validate_ltv_cac
  rw [if_pos hc]

theorem validate_margin_invalid (v : PrologValidator) (revenue costs : ℚ) (hr : revenue ≤ 0) :
    validate_margin v revenue costs = invalidMetric "Revenue must be positive" := by
  unfold validate_margin
  rw [if_pos hr]

theorem validate_roi_value (v : PrologValidator) (revenue costs : ℚ) :
    (validate_roi v revenue costs).value
      = if costs ≤ 0 then Option.none else some ((revenue - costs) / costs) := by
  unfold validate_roi invalidMetric
  split
  · rfl
  · split <;> rfl

theorem validate_ltv_cac_value (v : PrologValidator) (ltv cac : ℚ) :
    (validate_ltv_cac v ltv cac).value
      = if cac ≤ 0 then Option.none else some (ltv / cac) := by
  unfold validate_ltv_cac invalidMetric
  split
  · rfl
  · split <;> rfl

theorem validate_margin_value (v : PrologValidator) (revenue costs : ℚ) :
    (validate_margin v revenue costs).value
      = if revenue ≤ 0 then Option.none else some ((revenue - costs) / revenue * 100) := by
  unfold validate_margin invalidMetric
  split
  · rfl
  · split <;> rfl

/-- C4: each metric evaluator turns a failed positive-denominator precondition
into a structured result — `valid` false, a `None` value and the matching
reason — rather than an exception, and its value is `None` exactly in that
case. -/
theorem metric_precondition_failures (v : PrologValidator) (r c l k m w : ℚ) :
    ((validate_roi v r c).value = Option.none ↔ c ≤ 0)
  ∧ (c ≤ 0 → (validate_roi v r c).valid = false
      ∧ (validate_roi v r c).reason = some "Costs must be positive")
  ∧ ((validate_ltv_cac v l k).value = Option.none ↔ k ≤ 0)
  ∧ (k ≤ 0 → (validate_ltv_cac v l k).valid = false
      ∧ (validate_ltv_cac v l k).reason = some "CAC must be positive")
  ∧ ((validate_margin v m w).value = Option.none ↔ m ≤ 0)
  ∧ (m ≤ 0 → (validate_margin v m w).valid = false
      ∧ (validate_margin v m w).reason = some "Revenue must be positive") := by
  refine ⟨?_, fun hc => ?_, ?_, fun hk => ?_, ?_, fun hm => ?_⟩
  · rw [validate_roi_value]
    by_cases hc : c ≤ 0 <;> simp [hc]
  · rw [validate_roi_invalid v r c hc]
    exact ⟨rfl, rfl⟩
  · rw [validate_ltv_cac_value]
    by_cases hk : k ≤ 0 <;> simp [hk]
  · rw [validate_ltv_cac_invalid v l k hk]
    exact ⟨rfl, rfl⟩
  · rw [validate_margin_value]
    by_cases hm : m ≤ 0 <;> simp [hm]
  · rw [validate_margin_invalid v m w hm]
    exact ⟨rfl, rfl⟩

theorem metric_precondition_failures_witness :
    (validate_roi pythonOnlyValidator 7 (-5)).valid = false
  ∧ (validate_roi pythonOnlyValidator 7 (-5)).value = Option.none
  ∧ (validate_roi pythonOnlyValidator 7 0).valid = false
  ∧ (validate_ltv_cac pythonOnlyValidator 7 0).valid = false
  ∧ (validate_margin pythonOnlyValidator (-1) 5).valid = false := by
  obtain ⟨h1, h2, -, h4, -, h6⟩ :=
    metric_precondition_failures pythonOnlyValidator 7 (-5) 7 0 (-1) 5
  obtain ⟨-, g2, -, -, -, -⟩ :=
    metric_precondition_failures pythonOnlyValidator 7 0 7 0 (-1) 5
  exact ⟨(h2 (by norm_num)).1, h1.mpr (by norm_num), (g2 (by norm_num)).1,
    (h4 (by norm_num)).1, (h6 (by norm_num)).1⟩

/-- C8: the external-engine query never raises: unavailability, timeout, any
execution error and a non-zero exit all yield `None`, and with the engine
unavailable metric evaluation proceeds on the Python fallback path. -/
theorem query_prolog_failure_modes (v : PrologValidator) (outcome : ProcOutcome)
    (msg : String) (code : Nat) (revenue costs : ℚ) :
    queryProlog false outcome = Option.none
  ∧ queryProlog true ProcOutcome.timeout = Option.none
  ∧ queryProlog true (ProcOutcome.execError msg) = Option.none
  ∧ (code ≠ 0 → queryProlog true (ProcOutcome.exited code) = Option.none)
  ∧ (v.prologAvailable = false → 0 < costs →
      (validate_roi v revenue costs).validated_by = some "python"
      ∧ (validate_roi v revenue costs).valid = decide ((revenue - costs) / costs ≥ 3/2)) := by
  refine ⟨rfl, rfl, rfl, fun hcode => ?_, fun hav hc => ?_⟩
  · simp [queryProlog, hcode]
  · have hcn : ¬(costs ≤ 0) := not_le.mpr hc
    constructor <;> simp [validate_roi, hav, hcn]

theorem query_prolog_failure_modes_witness :
    queryProlog true (ProcOutcome.exited 2) = Option.none
  ∧ queryProlog true (ProcOutcome.execError "swipl crashed") = Option.none
  ∧ (validate_roi pythonOnlyValidator 10 2).validated_by = some "python" := by
  obtain ⟨-, -, h3, h4, h5⟩ :=
    query_prolog_failure_modes pythonOnlyValidator ProcOutcome.timeout "swipl crashed" 2 10 2
  exact ⟨h4 (by norm_num), h3, (h5 rfl (by norm_num)).1⟩

/-- C9: neither phase-gate validation (any phase, hence also the metric
evaluations it performs) nor report generation mutates the caller's context:
the threaded dictionary comes back unchanged. -/
theorem context_not_mutated (v : PrologValidator) (phase : String) (ctx : Ctx) :
    (validate_phase_gate v phase ctx).2 = ctx
    ∧ (generate_validation_report v ctx).2 = ctx :=
  ⟨phase_gate_ctx v phase ctx, report_ctx v ctx⟩

/-- C2 (amended): for the five recognized gates, on every context on which the
gate returns a result, the truthiness of `valid` equals the AND of the
pass/fail outcomes recorded in `checks` — though for P0 → P1 and P1 → P2 the
`valid` value itself may be a non-boolean falsy context value. -/
theorem gate_valid_truthy_iff_checks (v : PrologValidator) (phase : String) (ctx : Ctx)
    (r : GateResult) (hmem : phase ∈ (["p1", "p2", "p3", "p4", "p5"] : List String))
    (h : (validate_phase_gate v phase ctx).1 = .ok r) :
    r.valid.truthy = r.checks.all checkPassed := by
  simp only [List.mem_cons, List.not_mem_nil, or_false] at hmem
  rcases hmem with rfl | rfl | rfl | rfl | rfl
  · exact gate_p1_valid ctx r h
  · exact gate_p2_valid ctx r h
  · exact gate_p3_valid v ctx r h
  · exact gate_p4_valid ctx r h
  · exact gate_p5_valid v ctx r h

theorem gate_valid_truthy_iff_checks_witness :
    gateP4EmptyResult.valid.truthy = gateP4EmptyResult.checks.all checkPassed :=
  gate_valid_truthy_iff_checks pythonOnlyValidator "p4" [] gateP4EmptyResult
    (by decide) rfl

/-- C2 counterexample: on the empty context gate P1 → P2 returns
`valid = None` (Python's `and` of two absent values), which is not the boolean
AND (`False`) of the two failed sub-criteria recorded in `checks`. -/
theorem gate_p2_valid_not_boolean :
    (validate_phase_gate pythonOnlyValidator "p2" ([] : Ctx)).1 = .ok
      { valid := PyVal.none, gate := some "P1 → P2"
        checks := ["✗ Business model weak", "✗ Market not validated"]
        decision := some "HALT", reason := Option.none }
    ∧ PyVal.none ≠ PyVal.bool false
    ∧ (["✗ Business model weak", "✗ Market not validated"].all checkPassed) = false :=
  ⟨rfl, by decide, by decide⟩

/-- C5 (amended): the ROI sub-check of gate P2 → P3 (and the actual-figures
one of P4 → P5) is evaluated exactly when both evidence values are present
AND truthy — an entry appears among `checks` under exactly that condition. -/
theorem roi_subcheck_iff_truthy (v : PrologValidator) (ctx : Ctx) (r : GateResult) :
    ((validate_gate_p3 v ctx).1 = .ok r →
      r.checks.any (fun s => substrOf "MIDAS" s)
        = ((ctxGet ctx "revenue").truthy && (ctxGet ctx "costs").truthy))
    ∧ ((validate_gate_p5 v ctx).1 = .ok r →
      r.checks.any (fun s => substrOf "Actual ROI" s)
        = ((ctxGet ctx "actual_revenue").truthy && (ctxGet ctx "actual_costs").truthy)) :=
  ⟨gate_p3_midas v ctx r, gate_p5_roi v ctx r⟩

theorem roi_subcheck_iff_truthy_witness :
    gateP3EmptyResult.checks.any (fun s => substrOf "MIDAS" s)
      = ((ctxGet [] "revenue").truthy && (ctxGet [] "costs").truthy) :=
  (roi_subcheck_iff_truthy pythonOnlyValidator [] gateP3EmptyResult).1 rfl

/-- C5 counterexample: a context in which the revenue and costs evidence facts
are both present (revenue mapped to the float 0) yet gate P2 → P3 evaluates no
ROI sub-check: no MIDAS entry appears in `checks`. -/
theorem roi_subcheck_present_but_skipped :
    (ctxLookup zeroRevenueCtx "revenue").isSome = true
    ∧ (ctxLookup zeroRevenueCtx "costs").isSome = true
    ∧ ((validate_gate_p3 pythonOnlyValidator zeroRevenueCtx).1).toOption.map
        (fun r => r.checks.any (fun s => substrOf "MIDAS" s)) = some false :=
  ⟨rfl, rfl, by decide⟩

/-- C6: every phase identifier outside p1…p5 yields, on any context, the
structured `{"valid": False, "reason": "Unknown phase: <id>"}` result instead
of an exception. -/
theorem unknown_phase_result (v : PrologValidator) (phase : String) (ctx : Ctx)
    (h : phase ∉ (["p1", "p2", "p3", "p4", "p5"] : List String)) :
    (validate_phase_gate v phase ctx).1 = .ok
      { valid := .bool false, gate := Option.none, checks := []
        decision := Option.none, reason := some ("Unknown phase: " ++ phase) } := by
  simp only [List.mem_cons, List.not_mem_nil, or_false, not_or] at h
  obtain ⟨h1, h2, h3, h4, h5⟩ := h
  unfold validate_phase_gate
  rw [if_neg (by simp [h1]), if_neg (by simp [h2]), if_neg (by simp [h3]),
    if_neg (by simp [h4]), if_neg (by simp [h5])]

theorem unknown_phase_result_witness :
    (validate_phase_gate pythonOnlyValidator "p9" ([] : Ctx)).1 = .ok
      { valid := .bool false, gate := Option.none, checks := []
        decision := Option.none, reason := some "Unknown phase: p9" } :=
  unknown_phase_result pythonOnlyValidator "p9" [] (by decide)

/-- C7: a technology is approved iff all three policies (complexity-avoidance,
generation-friendliness, deployment simplicity) pass, the complexity
alternative is attached as warning on failure, the aggregate `valid` is the
AND over all recommendations, and the `["postgres", "react", "kubernetes"]`
audit yields exactly one approval with the expected failing policies. -/
theorem tech_stack_policy :
    (∀ techChoices : List String, ∀ t ∈ (validate_tech_stack techChoices).tech_choices,
      (t.recommendation = "✓ Approved"
        ↔ (t.simpler_checked && t.ai_friendly && t.deploy_simple) = true)
      ∧ (t.simpler_checked = false →
          t.warning = (check_simpler_alternative t.tech).alternative))
  ∧ (∀ techChoices : List String, (validate_tech_stack techChoices).valid
      = (validate_tech_stack techChoices).tech_choices.all
          (fun t => t.recommendation == "✓ Approved"))
  ∧ (validate_tech_stack ["postgres", "react", "kubernetes"]).tech_choices.map
      (fun t => t.recommendation) = ["✓ Approved", "⚠ Reconsider", "⚠ Reconsider"]
  ∧ (validate_tech_stack ["postgres", "react", "kubernetes"]).tech_choices.map
      (fun t => t.ai_friendly) = [true, false, true]
  ∧ (validate_tech_stack ["postgres", "react", "kubernetes"]).tech_choices.map
      (fun t => t.deploy_simple) = [true, true, false]
  ∧ (validate_tech_stack ["postgres", "react", "kubernetes"]).tech_choices.map
      (fun t => t.warning) = [Option.none, some "Consider HTMX + Alpine.js for simpler SSR",
        some "Consider Fly.io or Heroku unless 10K+ users"]
  ∧ (validate_tech_stack ["postgres", "react", "kubernetes"]).valid = false := by
  refine ⟨?_, fun techChoices => rfl, by decide, by decide, by decide, by decide, by decide⟩
  intro techChoices t ht
  simp only [validate_tech_stack, List.mem_map] at ht
  obtain ⟨name, -, rfl⟩ := ht
  constructor
  · by_cases hcond : ((check_simpler_alternative name).valid
        && check_ai_friendly name && check_deploy_simple name) = true <;>
      simp [auditTech, hcond]
  · intro hs
    simp only [auditTech] at hs ⊢
    rw [if_neg]
    simp [hs]

/-- C10: with the tier evidence absent the P0 → P1 gate falls back to tier t4
and fails the tier sub-check; consequently the gate's `valid` can be truthy
only when the context explicitly maps tier to t1 or t2 and
`research_complete` is truthy. -/
theorem gate_p1_tier_default (ctx : Ctx) (r : GateResult) :
    (ctxLookup ctx "tier" = Option.none →
      (validate_gate_p1 ctx).1 = .ok r →
      "✗ Tier T4 (no-go)" ∈ r.checks ∧ r.valid.truthy = false)
  ∧ ((validate_gate_p1 ctx).1 = .ok r → r.valid.truthy = true →
      (ctxLookup ctx "tier" = some (PyVal.str "t1")
        ∨ ctxLookup ctx "tier" = some (PyVal.str "t2"))
      ∧ (ctxGet ctx "research_complete").truthy = true) := by
  constructor
  · intro htier h
    have hd : ctxGetD ctx "tier" (PyVal.str "t4") = PyVal.str "t4" := by
      simp [ctxGetD, htier]
    unfold validate_gate_p1 at h
    simp only [ctxGetS, ctxGetDS, hd] at h
    simp only [Except.ok.injEq] at h
    subst h
    constructor
    · have h2 : ("t4" == "t1" || "t4" == "t2") = false := by decide
      have he : ("✗ Tier " ++ strUpper "t4" ++ " (no-go)") = "✗ Tier T4 (no-go)" := by decide
      simp only [h2, Bool.false_eq_true, if_false, he]
      exact List.mem_cons_of_mem _ (List.mem_singleton.mpr rfl)
    · simp [truthy_pyAnd, truthy_bool]
  · intro h hv
    unfold validate_gate_p1 at h
    simp only [ctxGetS, ctxGetDS] at h
    split at h
    · rename_i tv sv heq
      dsimp only at h
      simp only [Except.ok.injEq] at h
      subst h
      rw [truthy_pyAnd, Bool.and_eq_true] at hv
      obtain ⟨hrc, htk⟩ := hv
      rw [truthy_bool, Bool.or_eq_true, beq_iff_eq, beq_iff_eq] at htk
      refine ⟨?_, hrc⟩
      rcases hlk : ctxLookup ctx "tier" with _ | val
      · simp [ctxGetD, hlk] at heq
        rcases htk with h4 | h4 <;> rw [← heq] at h4 <;> simp at h4
      · simp [ctxGetD, hlk] at heq
        subst heq
        rcases htk with rfl | rfl
        · exact Or.inl rfl
        · exact Or.inr rfl
    · dsimp only at h
      simp at h

theorem gate_p1_tier_default_witness :
    "✗ Tier T4 (no-go)" ∈ gateP1EmptyResult.checks
    ∧ gateP1EmptyResult.valid.truthy = false :=
  (gate_p1_tier_default [] gateP1EmptyResult).1 rfl rfl
